import Mathlib

/-!
Verification of the `server/search.py` module: a shallow embedding of its
rate gate, search flows, and result formatting, with theorems checking the
natural-language specification against the code.

Conventions of the embedding:
* Python wall-clock times (`time.time()`) are rationals (`ℚ`).
* Python `dict.get` on possibly-missing keys becomes `Option`.
* Python dictionaries used as maps become association lists
  (`List (String × String)`), looked up with `List.lookup`.
* Raised exceptions become `Except String`, carrying `str(e)`.
* The upstream HTTP API is an oracle (`Upstream`): each endpoint is a
  function from the request parameters actually sent to either a transport
  failure (`Except.error`) or an `HttpResponse` with a status code and a
  parsed body.
* The mutable module-global `request_count` is threaded explicitly as a
  `RequestCount` value.
-/

/-- `RATE_LIMIT` dictionary: per-second and per-month request limits. -/
structure RateLimit where
  per_second : Nat
  per_month : Nat
  deriving Repr, DecidableEq

/-- The module-level default `RATE_LIMIT = {"per_second": 1, "per_month": 15000}`. -/
def RATE_LIMIT : RateLimit := ⟨1, 15000⟩

/-- `request_count` dictionary: counters per rolling second and per month,
plus the start of the current one-second window (`last_reset`). -/
structure RequestCount where
  second : Nat
  month : Nat
  last_reset : ℚ
  deriving Repr, DecidableEq

/-- The window-adjustment prefix of `check_rate_limit` (lines 83–86):
if more than one second has passed since `last_reset`, zero the per-second
counter and restart the window at `now`. -/
def windowAdjust (now : ℚ) (rc : RequestCount) : RequestCount :=
  if now - rc.last_reset > 1 then { rc with second := 0, last_reset := now } else rc

/-- Result of one `check_rate_limit()` call: the counters as left by the call,
and the raised error message, if any. -/
structure AdmitResult where
  newState : RequestCount
  error : Option String
  deriving Repr, DecidableEq

/-- `check_rate_limit()` (lines 81–93): adjust the one-second window, then
raise `ValueError('Rate limit exceeded')` when either counter has reached its
limit, otherwise increment both counters. -/
def check_rate_limit (lim : RateLimit) (now : ℚ) (rc : RequestCount) : AdmitResult :=
  let a := windowAdjust now rc
  if a.second ≥ lim.per_second ∨ a.month ≥ lim.per_month then
    ⟨a, some "Rate limit exceeded"⟩
  else
    ⟨{ a with second := a.second + 1, month := a.month + 1 }, none⟩

/-- A sequence of `check_rate_limit` calls at the given times, stopping at the
first raised error. -/
def admitSeq (lim : RateLimit) (ts : List ℚ) (rc : RequestCount) :
    Except String RequestCount :=
  match ts with
  | [] => Except.ok rc
  | t :: rest =>
    let r := check_rate_limit lim t rc
    match r.error with
    | some e => Except.error e
    | none => admitSeq lim rest r.newState

theorem windowAdjust_month (now : ℚ) (rc : RequestCount) :
    (windowAdjust now rc).month = rc.month := by
  unfold windowAdjust; split <;> rfl

theorem windowAdjust_of_le (now : ℚ) (rc : RequestCount) (h : now - rc.last_reset ≤ 1) :
    windowAdjust now rc = rc := by
  unfold windowAdjust
  rw [if_neg (by exact not_lt.mpr h)]

/-- Successful run of `admitSeq` when both counters have room for the whole
list of admit times and no time leaves the window. -/
theorem admitSeq_ok (lim : RateLimit) (ts : List ℚ) (rc : RequestCount)
    (hw : ∀ t ∈ ts, t - rc.last_reset ≤ 1)
    (hs : rc.second + ts.length ≤ lim.per_second)
    (hm : rc.month + ts.length ≤ lim.per_month) :
    admitSeq lim ts rc =
      Except.ok ⟨rc.second + ts.length, rc.month + ts.length, rc.last_reset⟩ := by
  induction ts generalizing rc with
  | nil => simp [admitSeq]
  | cons t rest ih =>
    have hadj : windowAdjust t rc = rc :=
      windowAdjust_of_le t rc (hw t (List.mem_cons_self t rest))
    have hs1 : rc.second < lim.per_second := by
      have := hs; simp [List.length_cons] at this; omega
    have hm1 : rc.month < lim.per_month := by
      have := hm; simp [List.length_cons] at this; omega
    have hgate : check_rate_limit lim t rc =
        ⟨⟨rc.second + 1, rc.month + 1, rc.last_reset⟩, none⟩ := by
      unfold check_rate_limit
      rw [hadj]
      rw [if_neg (by push_neg; exact ⟨hs1, hm1⟩)]
    have hrest := ih ⟨rc.second + 1, rc.month + 1, rc.last_reset⟩
      (by intro u hu; exact hw u (List.mem_cons_of_mem t hu))
      (by simp at hs ⊢; omega)
      (by simp at hm ⊢; omega)
    simp only [admitSeq, hgate]
    rw [hrest]
    congr 1
    simp [List.length_cons]
    constructor <;> omega

/-- C1: `check_rate_limit` fails iff, after the window adjustment, a counter
has reached its limit; otherwise it increments both counters by one. After
exactly `per_second` successful admits within one second, the next admit
(still within the window) fails. -/
theorem check_rate_limit_spec (lim : RateLimit) (now : ℚ) (rc : RequestCount) :
    ((check_rate_limit lim now rc).error.isSome ↔
      (windowAdjust now rc).second ≥ lim.per_second ∨
      (windowAdjust now rc).month ≥ lim.per_month)
    ∧ ((check_rate_limit lim now rc).error = none →
        (check_rate_limit lim now rc).newState =
          ⟨(windowAdjust now rc).second + 1, (windowAdjust now rc).month + 1,
            (windowAdjust now rc).last_reset⟩)
    ∧ (∀ (ts : List ℚ) (t' : ℚ),
        rc.second = 0 →
        ts.length = lim.per_second →
        (∀ t ∈ ts, t - rc.last_reset ≤ 1) →
        t' - rc.last_reset ≤ 1 →
        rc.month + lim.per_second ≤ lim.per_month →
        (admitSeq lim ts rc).isOk = true ∧
        (admitSeq lim ts rc).bind
            (fun s => match (check_rate_limit lim t' s).error with
              | some e => Except.error e
              | none => Except.ok (check_rate_limit lim t' s).newState) =
          Except.error "Rate limit exceeded") := by
  refine ⟨?_, ?_, ?_⟩
  · simp only [check_rate_limit]
    split
    · simpa
    · next h => simpa using h
  · simp only [check_rate_limit]
    split
    · simp
    · intro _; rfl
  · intro ts t' h0 hlen hw ht' hm
    have hrun := admitSeq_ok lim ts rc hw (by omega) (by omega)
    rw [hlen] at hrun
    constructor
    · rw [hrun]; rfl
    · rw [hrun]
      have hadj : windowAdjust t' ⟨rc.second + lim.per_second, rc.month + lim.per_second,
          rc.last_reset⟩ = ⟨rc.second + lim.per_second, rc.month + lim.per_second,
          rc.last_reset⟩ :=
        windowAdjust_of_le _ _ ht'
      have hgate : (check_rate_limit lim t' ⟨rc.second + lim.per_second,
          rc.month + lim.per_second, rc.last_reset⟩).error = some "Rate limit exceeded" := by
        unfold check_rate_limit
        rw [hadj]
        rw [if_pos (Or.inl (by simp))]
      simp only [Except.bind]
      rw [hgate]

/-- Witness for C1 at the default limits: one admit at time `0` starting from
zeroed counters succeeds, and a second admit at time `1/2` fails. -/
theorem check_rate_limit_spec_witness :
    (admitSeq RATE_LIMIT [0] ⟨0, 0, 0⟩).isOk = true ∧
    (admitSeq RATE_LIMIT [0] ⟨0, 0, 0⟩).bind
        (fun s => match (check_rate_limit RATE_LIMIT (1/2) s).error with
          | some e => Except.error e
          | none => Except.ok (check_rate_limit RATE_LIMIT (1/2) s).newState) =
      Except.error "Rate limit exceeded" :=
  (check_rate_limit_spec RATE_LIMIT 0 ⟨0, 0, 0⟩).2.2 [0] (1/2)
    rfl rfl (by intro t ht; simp at ht; subst ht; norm_num) (by norm_num)
    (by norm_num [RATE_LIMIT])

/-- Counterexample to C2: at exactly one second past `last_reset` the code
does not reset (the guard is `now - last_reset > 1`, strict). With the default
limits, counters `second = 1`, `month = 5`, `last_reset = 0` and an admit at
`now = 1`: the clock has advanced exactly one second and the month count is
below its limit, yet the admit fails and no reset occurred. -/
theorem reset_at_one_second_fails :
    (1 : ℚ) - (0 : ℚ) ≥ 1 ∧
    (5 : Nat) < RATE_LIMIT.per_month ∧
    windowAdjust 1 ⟨1, 5, 0⟩ = ⟨1, 5, 0⟩ ∧
    (check_rate_limit RATE_LIMIT 1 ⟨1, 5, 0⟩).error = some "Rate limit exceeded" := by
  refine ⟨by norm_num, by norm_num [RATE_LIMIT], ?_, ?_⟩
  · unfold windowAdjust
    norm_num
  · unfold check_rate_limit windowAdjust
    norm_num [RATE_LIMIT]

/-- C2 (amended): `secondCount` is reset to 0 and `windowStart` set to `now`
whenever the clock has advanced strictly more than one second past
`windowStart`; consequently an admit strictly more than one second after
`windowStart`, with the month count below its limit (and a positive
per-second limit), succeeds regardless of the previous `secondCount`. -/
theorem reset_after_window (lim : RateLimit) (now : ℚ) (rc : RequestCount)
    (hw : now - rc.last_reset > 1) (hm : rc.month < lim.per_month)
    (hs : 0 < lim.per_second) :
    windowAdjust now rc = ⟨0, rc.month, now⟩ ∧
    (check_rate_limit lim now rc).error = none ∧
    (check_rate_limit lim now rc).newState = ⟨1, rc.month + 1, now⟩ := by
  have hadj : windowAdjust now rc = ⟨0, rc.month, now⟩ := by
    unfold windowAdjust
    rw [if_pos hw]
  refine ⟨hadj, ?_, ?_⟩ <;>
  · unfold check_rate_limit
    rw [hadj]
    rw [if_neg (by push_neg; exact ⟨hs, hm⟩)]

/-- Witness for C2's amendment: with the default limits, an admit at time `2`
from counters `⟨1, 5, 0⟩` succeeds after the reset. -/
theorem reset_after_window_witness :
    (2 : ℚ) - (0 : ℚ) > 1 ∧ (5 : Nat) < RATE_LIMIT.per_month ∧
    0 < RATE_LIMIT.per_second ∧
    (check_rate_limit RATE_LIMIT 2 ⟨1, 5, 0⟩).error = none := by
  refine ⟨by norm_num, by norm_num [RATE_LIMIT], by norm_num [RATE_LIMIT], ?_⟩
  exact (reset_after_window RATE_LIMIT 2 ⟨1, 5, 0⟩ (by norm_num)
    (by norm_num [RATE_LIMIT]) (by norm_num [RATE_LIMIT])).2.1

/-- C10: when `check_rate_limit` raises `Rate limit exceeded`, the counters
are left exactly as the window adjustment put them: the month count is
unchanged, and the second count is either unchanged or zeroed by the window
reset — a rejected call consumes no quota. -/
theorem check_rate_limit_reject_no_quota (lim : RateLimit) (now : ℚ)
    (rc : RequestCount) (h : (check_rate_limit lim now rc).error.isSome) :
    (check_rate_limit lim now rc).newState = windowAdjust now rc ∧
    (check_rate_limit lim now rc).newState.month = rc.month ∧
    ((check_rate_limit lim now rc).newState.second = rc.second ∨
      (check_rate_limit lim now rc).newState.second = 0) := by
  have hfail : (windowAdjust now rc).second ≥ lim.per_second ∨
      (windowAdjust now rc).month ≥ lim.per_month := by
    by_contra hc
    unfold check_rate_limit at h
    rw [if_neg hc] at h
    simp at h
  have hstate : (check_rate_limit lim now rc).newState = windowAdjust now rc := by
    unfold check_rate_limit
    rw [if_pos hfail]
  refine ⟨hstate, ?_, ?_⟩
  · rw [hstate]; exact windowAdjust_month now rc
  · rw [hstate]
    unfold windowAdjust
    split
    · right; rfl
    · left; rfl

/-- Witness for C10: with the default limits, an admit at time `0` from
counters `⟨1, 0, 0⟩` is rejected and leaves the counters untouched. -/
theorem check_rate_limit_reject_no_quota_witness :
    (check_rate_limit RATE_LIMIT 0 ⟨1, 0, 0⟩).error.isSome = true ∧
    (check_rate_limit RATE_LIMIT 0 ⟨1, 0, 0⟩).newState.month = 0 ∧
    ((check_rate_limit RATE_LIMIT 0 ⟨1, 0, 0⟩).newState.second = 1 ∨
      (check_rate_limit RATE_LIMIT 0 ⟨1, 0, 0⟩).newState.second = 0) := by
  have h : (check_rate_limit RATE_LIMIT 0 ⟨1, 0, 0⟩).error.isSome = true := by
    unfold check_rate_limit windowAdjust
    norm_num [RATE_LIMIT]
  exact ⟨h, (check_rate_limit_reject_no_quota RATE_LIMIT 0 ⟨1, 0, 0⟩ h).2.1,
    (check_rate_limit_reject_no_quota RATE_LIMIT 0 ⟨1, 0, 0⟩ h).2.2⟩

/-- `BraveLocationAddress`: the four optional address components. An absent
key is `none`; Python truthiness on a present empty string is handled at the
use site. -/
structure BraveLocationAddress where
  streetAddress : Option String
  addressLocality : Option String
  addressRegion : Option String
  postalCode : Option String
  deriving Repr, DecidableEq

/-- `BraveLocationRating`. `ratingValue` is a JSON number that the code only
ever interpolates into a string, so it is carried here as its rendered text;
`ratingCount` is interpolated the way Lean renders a `Nat`. -/
structure BraveLocationRating where
  ratingValue : Option String
  ratingCount : Option Nat
  deriving Repr, DecidableEq

/-- `BraveLocation` (a POI record): only `id` is required; every other field
the formatter touches is optional. -/
structure BraveLocation where
  id : String
  name : Option String
  address : Option BraveLocationAddress
  phone : Option String
  rating : Option BraveLocationRating
  openingHours : Option (List String)
  priceRange : Option String
  deriving Repr, DecidableEq

/-- `BravePoiResponse`: `results` is `none` when the key is absent. -/
structure BravePoiResponse where
  results : Option (List BraveLocation)
  deriving Repr, DecidableEq

/-- `BraveDescription`: the `descriptions` dict as an association list from
location id to description text (an absent or empty dict is `[]`). -/
structure BraveDescription where
  descriptions : List (String × String)
  deriving Repr, DecidableEq

/-- The `address_parts` accumulation of `format_local_results`
(lines 199–208): each component is appended only when present and truthy
(non-empty), in the order street, locality, region, postal. -/
def address_parts (addr : BraveLocationAddress) : List String :=
  (match addr.streetAddress with
    | some s => if s ≠ "" then [s] else []
    | none => []) ++
  (match addr.addressLocality with
    | some s => if s ≠ "" then [s] else []
    | none => []) ++
  (match addr.addressRegion with
    | some s => if s ≠ "" then [s] else []
    | none => []) ++
  (match addr.postalCode with
    | some s => if s ≠ "" then [s] else []
    | none => [])

/-- The `address` string of one POI block (lines 199–210): the comma-joined
non-empty parts, or `N/A` when there are none (including when the `address`
key is absent). -/
def address_str (poi : BraveLocation) : String :=
  let parts := match poi.address with
    | some addr => address_parts addr
    | none => []
  if parts = [] then "N/A" else String.intercalate ", " parts

/-- The `rating_value` of one POI block (lines 212–216): the rating's value
when the rating dict is present (and truthy) and holds a non-`None` value,
else `N/A`. -/
def rating_value_str (poi : BraveLocation) : String :=
  match poi.rating with
  | some r => match r.ratingValue with
    | some v => v
    | none => "N/A"
  | none => "N/A"

/-- The `rating_count` of one POI block (lines 213–218): the rating's count
when present and non-`None`, else `0`. -/
def rating_count (poi : BraveLocation) : Nat :=
  match poi.rating with
  | some r => r.ratingCount.getD 0
  | none => 0

/-- The `hours` string of one POI block (lines 220–222): the comma-joined
`openingHours` when the list is present and truthy (non-empty), else `N/A`. -/
def hours_str (poi : BraveLocation) : String :=
  match poi.openingHours with
  | some hs => if hs = [] then "N/A" else String.intercalate ", " hs
  | none => "N/A"

/-- The `description` string of one POI block (lines 224–226): the mapped
description when the descriptions dict contains the POI's id, else the
default text. -/
def description_str (desc_data : BraveDescription) (poi : BraveLocation) : String :=
  match desc_data.descriptions.lookup poi.id with
  | some d => d
  | none => "No description available"

/-- One POI block of `format_local_results` (the f-string of lines 228–234). -/
def format_poi (desc_data : BraveDescription) (poi : BraveLocation) : String :=
  "Name: " ++ poi.name.getD "N/A" ++
  "\nAddress: " ++ address_str poi ++
  "\nPhone: " ++ poi.phone.getD "N/A" ++
  "\nRating: " ++ rating_value_str poi ++ " (" ++ toString (rating_count poi) ++ " reviews)" ++
  "\nPrice Range: " ++ poi.priceRange.getD "N/A" ++
  "\nHours: " ++ hours_str poi ++
  "\nDescription: " ++ description_str desc_data poi

/-- `format_local_results` (lines 191–238): the fixed no-results text when the
`results` list is absent or empty, else the POI blocks joined by a `---`
separator line. -/
def format_local_results (pois_data : BravePoiResponse) (desc_data : BraveDescription) :
    String :=
  match pois_data.results with
  | none => "No local results found"
  | some [] => "No local results found"
  | some pois => String.intercalate "\n---\n" (pois.map (format_poi desc_data))

/-- C9: with the `results` key absent, or present with an empty list, the
formatter returns the fixed no-results text, whatever the description map. -/
theorem format_local_results_empty (desc_data : BraveDescription) :
    format_local_results ⟨none⟩ desc_data = "No local results found" ∧
    format_local_results ⟨some []⟩ desc_data = "No local results found" :=
  ⟨rfl, rfl⟩

/-- Spec-side address parts: the present components in the order street,
locality, region, postal, keeping only the non-empty ones. -/
def spec_address_parts (addr : Option BraveLocationAddress) : List String :=
  match addr with
  | none => []
  | some a =>
    ([a.streetAddress, a.addressLocality, a.addressRegion, a.postalCode].filterMap id).filter
      (fun s => s ≠ "")

/-- Spec-side rendering of one POI block, written from the specification's
words: the seven fixed labelled lines in order, joined by newlines; the
address is the comma-join of the non-empty parts or `N/A`; the rating line is
`<value or N/A> (<count or 0> reviews)`; the description comes from the map
or is the default text. -/
def spec_local_block (desc_data : BraveDescription) (poi : BraveLocation) : String :=
  String.intercalate "\n" [
    "Name: " ++ poi.name.getD "N/A",
    "Address: " ++ (if spec_address_parts poi.address = [] then "N/A"
      else String.intercalate ", " (spec_address_parts poi.address)),
    "Phone: " ++ poi.phone.getD "N/A",
    "Rating: " ++ ((poi.rating.bind (fun r => r.ratingValue)).getD "N/A") ++ " (" ++
      toString ((poi.rating.bind (fun r => r.ratingCount)).getD 0) ++ " reviews)",
    "Price Range: " ++ poi.priceRange.getD "N/A",
    "Hours: " ++ (if poi.openingHours.getD [] = [] then "N/A"
      else String.intercalate ", " (poi.openingHours.getD [])),
    "Description: " ++ ((desc_data.descriptions.lookup poi.id).getD "No description available")
  ]

/-- Spec-side rendering of a POI list: one block per POI in input order,
joined by a separator line of three dashes. -/
def spec_format_local (pois : List BraveLocation) (desc_data : BraveDescription) : String :=
  String.intercalate "\n---\n" (pois.map (spec_local_block desc_data))

theorem address_parts_eq_spec (a : BraveLocationAddress) :
    address_parts a = spec_address_parts (some a) := by
  obtain ⟨s, l, r, p⟩ := a
  unfold address_parts spec_address_parts
  cases s <;> cases l <;> cases r <;> cases p <;>
    simp [List.filterMap, List.filter] <;> split_ifs <;> simp_all

theorem address_str_eq_spec (poi : BraveLocation) :
    address_str poi = (if spec_address_parts poi.address = [] then "N/A"
      else String.intercalate ", " (spec_address_parts poi.address)) := by
  unfold address_str
  cases h : poi.address with
  | none => simp [spec_address_parts]
  | some a => simp [address_parts_eq_spec]

theorem rating_value_str_eq_spec (poi : BraveLocation) :
    rating_value_str poi = (poi.rating.bind (fun r => r.ratingValue)).getD "N/A" := by
  unfold rating_value_str
  cases poi.rating with
  | none => rfl
  | some r => cases h : r.ratingValue <;> simp [h]

theorem rating_count_eq_spec (poi : BraveLocation) :
    rating_count poi = (poi.rating.bind (fun r => r.ratingCount)).getD 0 := by
  unfold rating_count
  cases poi.rating with
  | none => rfl
  | some r => simp

theorem hours_str_eq_spec (poi : BraveLocation) :
    hours_str poi = (if poi.openingHours.getD [] = [] then "N/A"
      else String.intercalate ", " (poi.openingHours.getD [])) := by
  unfold hours_str
  cases poi.openingHours <;> simp

theorem description_str_eq_spec (desc_data : BraveDescription) (poi : BraveLocation) :
    description_str desc_data poi =
      (desc_data.descriptions.lookup poi.id).getD "No description available" := by
  unfold description_str
  cases desc_data.descriptions.lookup poi.id <;> simp

theorem format_poi_eq_spec (desc_data : BraveDescription) (poi : BraveLocation) :
    format_poi desc_data poi = spec_local_block desc_data poi := by
  rw [spec_local_block, ← address_str_eq_spec, ← rating_value_str_eq_spec,
    ← rating_count_eq_spec, ← hours_str_eq_spec, ← description_str_eq_spec]
  apply String.ext
  simp [format_poi, String.intercalate, String.intercalate.go,
    String.data_append, List.append_assoc]

/-- C6: on a non-empty POI list the formatter's output is exactly the
spec-described rendering: one block of the seven fixed labelled lines per
POI in input order, blocks joined by a `---` separator line. -/
theorem format_local_results_eq_spec (pois : List BraveLocation)
    (desc_data : BraveDescription) (h : pois ≠ []) :
    format_local_results ⟨some pois⟩ desc_data = spec_format_local pois desc_data := by
  have hmap : pois.map (format_poi desc_data) = pois.map (spec_local_block desc_data) := by
    have : format_poi desc_data = spec_local_block desc_data :=
      funext (format_poi_eq_spec desc_data)
    rw [this]
  cases pois with
  | nil => exact absurd rfl h
  | cons p ps =>
    show String.intercalate "\n---\n" ((p :: ps).map (format_poi desc_data)) = _
    rw [hmap]
    rfl

/-- A concrete POI mirroring the repository's test fixture. -/
def poiW : BraveLocation :=
  ⟨"loc1", some "Restaurant 1",
    some ⟨some "123 Main St", some "Anytown", some "CA", some "12345"⟩,
    some "+1-555-123-4567", some ⟨some "4.5", some 100⟩,
    some ["Mon-Fri 9am-5pm", "Sat 10am-3pm"], some "$$"⟩

/-- A concrete description map mirroring the repository's test fixture. -/
def descW : BraveDescription :=
  ⟨[("loc1", "A great place to eat with a variety of dishes.")]⟩

/-- Witness for C6 on the test-fixture POI. -/
theorem format_local_results_eq_spec_witness :
    ([poiW] : List BraveLocation) ≠ [] ∧
    format_local_results ⟨some [poiW]⟩ descW = spec_format_local [poiW] descW :=
  ⟨by decide, format_local_results_eq_spec [poiW] descW (by decide)⟩

/-- C7: each optional POI field that is missing is rendered as `N/A` on its
labelled output line (for a missing rating, as `N/A (0 reviews)`). -/
theorem format_poi_missing_fields (desc_data : BraveDescription) (poi : BraveLocation) :
    (poi.name = none → ∃ t, format_poi desc_data poi = "Name: N/A\n" ++ t) ∧
    (poi.address = none →
      ∃ s t, format_poi desc_data poi = s ++ "\nAddress: N/A\n" ++ t) ∧
    (poi.phone = none →
      ∃ s t, format_poi desc_data poi = s ++ "\nPhone: N/A\n" ++ t) ∧
    (poi.rating = none →
      ∃ s t, format_poi desc_data poi = s ++ "\nRating: N/A (0 reviews)\n" ++ t) ∧
    (poi.priceRange = none →
      ∃ s t, format_poi desc_data poi = s ++ "\nPrice Range: N/A\n" ++ t) ∧
    (poi.openingHours = none →
      ∃ s t, format_poi desc_data poi = s ++ "\nHours: N/A\n" ++ t) := by
  refine ⟨?_, ?_, ?_, ?_, ?_, ?_⟩
  · intro h
    refine ⟨"Address: " ++ address_str poi ++ "\nPhone: " ++ poi.phone.getD "N/A" ++
      "\nRating: " ++ rating_value_str poi ++ " (" ++ toString (rating_count poi) ++
      " reviews)" ++ "\nPrice Range: " ++ poi.priceRange.getD "N/A" ++ "\nHours: " ++
      hours_str poi ++ "\nDescription: " ++ description_str desc_data poi, String.ext ?_⟩
    simp [format_poi, h, String.data_append, List.append_assoc]
  · intro h
    refine ⟨"Name: " ++ poi.name.getD "N/A",
      "Phone: " ++ poi.phone.getD "N/A" ++ "\nRating: " ++ rating_value_str poi ++ " (" ++
      toString (rating_count poi) ++ " reviews)" ++ "\nPrice Range: " ++
      poi.priceRange.getD "N/A" ++ "\nHours: " ++ hours_str poi ++ "\nDescription: " ++
      description_str desc_data poi, String.ext ?_⟩
    simp [format_poi, address_str, h, String.data_append, List.append_assoc]
  · intro h
    refine ⟨"Name: " ++ poi.name.getD "N/A" ++ "\nAddress: " ++ address_str poi,
      "Rating: " ++ rating_value_str poi ++ " (" ++ toString (rating_count poi) ++
      " reviews)" ++ "\nPrice Range: " ++ poi.priceRange.getD "N/A" ++ "\nHours: " ++
      hours_str poi ++ "\nDescription: " ++ description_str desc_data poi, String.ext ?_⟩
    simp [format_poi, h, String.data_append, List.append_assoc]
  · intro h
    refine ⟨"Name: " ++ poi.name.getD "N/A" ++ "\nAddress: " ++ address_str poi ++
      "\nPhone: " ++ poi.phone.getD "N/A",
      "Price Range: " ++ poi.priceRange.getD "N/A" ++ "\nHours: " ++ hours_str poi ++
      "\nDescription: " ++ description_str desc_data poi, String.ext ?_⟩
    simp [format_poi, rating_value_str, rating_count, h,
      show toString (0 : Nat) = "0" from rfl, String.data_append, List.append_assoc]
  · intro h
    refine ⟨"Name: " ++ poi.name.getD "N/A" ++ "\nAddress: " ++ address_str poi ++
      "\nPhone: " ++ poi.phone.getD "N/A" ++ "\nRating: " ++ rating_value_str poi ++
      " (" ++ toString (rating_count poi) ++ " reviews)",
      "Hours: " ++ hours_str poi ++ "\nDescription: " ++ description_str desc_data poi,
      String.ext ?_⟩
    simp [format_poi, h, String.data_append, List.append_assoc]
  · intro h
    refine ⟨"Name: " ++ poi.name.getD "N/A" ++ "\nAddress: " ++ address_str poi ++
      "\nPhone: " ++ poi.phone.getD "N/A" ++ "\nRating: " ++ rating_value_str poi ++
      " (" ++ toString (rating_count poi) ++ " reviews)" ++ "\nPrice Range: " ++
      poi.priceRange.getD "N/A",
      "Description: " ++ description_str desc_data poi, String.ext ?_⟩
    simp [format_poi, hours_str, h, String.data_append, List.append_assoc]

/-- A POI with every optional field absent. -/
def poiNone : BraveLocation := ⟨"locX", none, none, none, none, none, none⟩

/-- Witness for C7 on a POI with every optional field absent. -/
theorem format_poi_missing_fields_witness :
    (∃ t, format_poi descW poiNone = "Name: N/A\n" ++ t) ∧
    (∃ s t, format_poi descW poiNone = s ++ "\nAddress: N/A\n" ++ t) ∧
    (∃ s t, format_poi descW poiNone = s ++ "\nPhone: N/A\n" ++ t) ∧
    (∃ s t, format_poi descW poiNone = s ++ "\nRating: N/A (0 reviews)\n" ++ t) ∧
    (∃ s t, format_poi descW poiNone = s ++ "\nPrice Range: N/A\n" ++ t) ∧
    (∃ s t, format_poi descW poiNone = s ++ "\nHours: N/A\n" ++ t) :=
  ⟨(format_poi_missing_fields descW poiNone).1 rfl,
    (format_poi_missing_fields descW poiNone).2.1 rfl,
    (format_poi_missing_fields descW poiNone).2.2.1 rfl,
    (format_poi_missing_fields descW poiNone).2.2.2.1 rfl,
    (format_poi_missing_fields descW poiNone).2.2.2.2.1 rfl,
    (format_poi_missing_fields descW poiNone).2.2.2.2.2 rfl⟩

/-- One raw entry of the upstream web-results array: the three fields the
code reads, each possibly absent. -/
structure BraveWebRaw where
  title : Option String
  description : Option String
  url : Option String
  deriving Repr, DecidableEq

/-- One extracted web result: title, description and url, with missing raw
fields defaulted to the empty string. -/
structure WebResult where
  title : String
  description : String
  url : String
  deriving Repr, DecidableEq

/-- The `web` section of an upstream web response: its `results` key may be
absent. -/
structure BraveWebSection where
  results : Option (List BraveWebRaw)
  deriving Repr, DecidableEq

/-- One raw entry of the `locations.results` array: the code reads only the
`id` key. -/
structure BraveLocationRaw where
  id : Option String
  deriving Repr, DecidableEq

/-- The `locations` section of an upstream web response. -/
structure BraveLocationsSection where
  results : Option (List BraveLocationRaw)
  deriving Repr, DecidableEq

/-- An upstream web-search response body: optional `web` and `locations`
sections. -/
structure BraveWebResponse where
  web : Option BraveWebSection
  locations : Option BraveLocationsSection
  deriving Repr, DecidableEq

/-- The result-extraction loop of `perform_web_search` (lines 122–130):
the entries of `data['web']['results']` with missing fields defaulted to
`''`, and the empty list when either key is absent. -/
def extract_web_results (data : BraveWebResponse) : List WebResult :=
  match data.web with
  | none => []
  | some sec =>
    match sec.results with
    | none => []
    | some rs => rs.map (fun r => ⟨r.title.getD "", r.description.getD "", r.url.getD ""⟩)

/-- The return expression of `perform_web_search` (lines 132–135): each
result as three labelled lines, entries joined by blank lines. -/
def format_web (results : List WebResult) : String :=
  String.intercalate "\n\n" (results.map (fun r =>
    "Title: " ++ r.title ++ "\nDescription: " ++ r.description ++ "\nURL: " ++ r.url))

/-- The location-id extraction of `perform_local_search` (lines 267–270):
the truthy `id` values of `locations.results`, or `[]` when the section or
list is absent (or the `locations` dict is empty and hence falsy). -/
def extract_location_ids (data : BraveWebResponse) : List String :=
  match data.locations with
  | none => []
  | some sec =>
    match sec.results with
    | none => []
    | some rs => rs.filterMap (fun r =>
        match r.id with
        | some s => if s ≠ "" then some s else none
        | none => none)

/-- An upstream HTTP response: status, reason phrase, raw text, and the
parsed JSON body. -/
structure HttpResponse (α : Type) where
  status_code : Nat
  reason_phrase : String
  text : String
  body : α

/-- The error message raised on a non-200 upstream status (lines 118, 160,
187, 263). -/
def apiError {α : Type} (r : HttpResponse α) : String :=
  "Brave API error: " ++ toString r.status_code ++ " " ++ r.reason_phrase ++ "\n" ++ r.text

/-- The upstream API as an oracle: each endpoint maps the request parameters
the code actually sends to either a transport failure (a raised network
error, `Except.error`) or an `HttpResponse`. `webSearchResp` takes the query,
the sent count and the offset; `localInitResp` the query and the sent count
(its `search_lang`/`result_filter` parameters are constants); `poisResp` and
`descResp` the filtered id lists. -/
structure Upstream where
  webSearchResp : String → Nat → Nat → Except String (HttpResponse BraveWebResponse)
  localInitResp : String → Nat → Except String (HttpResponse BraveWebResponse)
  poisResp : List String → Except String (HttpResponse BravePoiResponse)
  descResp : List String → Except String (HttpResponse BraveDescription)

/-- The `params` dict of `perform_web_search` (lines 101–105): the count is
clamped to at most 20. -/
structure WebSearchParams where
  q : String
  count : Nat
  offset : Nat
  deriving Repr, DecidableEq

def web_search_params (query : String) (count offset : Nat) : WebSearchParams :=
  ⟨query, min count 20, offset⟩

/-- The `params` dict of the initial request of `perform_local_search`
(lines 246–251). -/
structure LocalSearchParams where
  q : String
  search_lang : String
  result_filter : String
  count : Nat
  deriving Repr, DecidableEq

def local_search_params (query : String) (count : Nat) : LocalSearchParams :=
  ⟨query, "en", "locations", min count 20⟩

/-- `perform_web_search` (lines 95–135): rate-gate, send the request with the
clamped count, fail on transport errors and non-200 statuses, else format the
extracted results. Returns the text and the counters after the call. -/
def perform_web_search (env : Upstream) (lim : RateLimit) (now : ℚ) (query : String)
    (count offset : Nat) (rc : RequestCount) : Except String (String × RequestCount) :=
  let g := check_rate_limit lim now rc
  match g.error with
  | some e => Except.error e
  | none =>
    let p := web_search_params query count offset
    match env.webSearchResp p.q p.count p.offset with
    | Except.error e => Except.error e
    | Except.ok resp =>
      if resp.status_code ≠ 200 then Except.error (apiError resp)
      else Except.ok (format_web (extract_web_results resp.body), g.newState)

/-- `get_pois_data` (lines 137–162): rate-gate, send the non-empty ids, fail
on transport errors and non-200 statuses, else return the parsed body. -/
def get_pois_data (env : Upstream) (lim : RateLimit) (now : ℚ) (ids : List String)
    (rc : RequestCount) : Except String (BravePoiResponse × RequestCount) :=
  let g := check_rate_limit lim now rc
  match g.error with
  | some e => Except.error e
  | none =>
    match env.poisResp (ids.filter (fun i => i ≠ "")) with
    | Except.error e => Except.error e
    | Except.ok resp =>
      if resp.status_code ≠ 200 then Except.error (apiError resp)
      else Except.ok (resp.body, g.newState)

/-- `get_descriptions_data` (lines 164–189): same shape as `get_pois_data`
against the descriptions endpoint. -/
def get_descriptions_data (env : Upstream) (lim : RateLimit) (now : ℚ) (ids : List String)
    (rc : RequestCount) : Except String (BraveDescription × RequestCount) :=
  let g := check_rate_limit lim now rc
  match g.error with
  | some e => Except.error e
  | none =>
    match env.descResp (ids.filter (fun i => i ≠ "")) with
    | Except.error e => Except.error e
    | Except.ok resp =>
      if resp.status_code ≠ 200 then Except.error (apiError resp)
      else Except.ok (resp.body, g.newState)

/-- The tail of `perform_local_search` from line 262 on, once the initial
response is in hand (`rcg` are the counters left by the orchestrator's own
admit): check the status, extract the truthy location ids, fall back to
`perform_web_search(query, count)` when there are none, else fetch POIs and
descriptions and merge. -/
def local_search_continue (env : Upstream) (lim : RateLimit) (t1 t2 t3 : ℚ)
    (query : String) (count : Nat) (rcg : RequestCount)
    (resp : HttpResponse BraveWebResponse) : Except String (String × RequestCount) :=
  if resp.status_code ≠ 200 then Except.error (apiError resp)
  else
    let location_ids := extract_location_ids resp.body
    if location_ids = [] then
      perform_web_search env lim t1 query count 0 rcg
    else
      match get_pois_data env lim t2 location_ids rcg with
      | Except.error e => Except.error e
      | Except.ok (pois_data, rc2) =>
        match get_descriptions_data env lim t3 location_ids rc2 with
        | Except.error e => Except.error e
        | Except.ok (descriptions_data, rc3) =>
          Except.ok (format_local_results pois_data descriptions_data, rc3)

/-- `perform_local_search` (lines 240–282): rate-gate, issue the
locations-filtered initial request, then continue with
`local_search_continue`. `t0` is the time of the orchestrator's own admit,
`t1` of the fallback web search's admit, `t2` and `t3` of the POI and
description admits. -/
def perform_local_search (env : Upstream) (lim : RateLimit) (t0 t1 t2 t3 : ℚ)
    (query : String) (count : Nat) (rc : RequestCount) :
    Except String (String × RequestCount) :=
  let g := check_rate_limit lim t0 rc
  match g.error with
  | some e => Except.error e
  | none =>
    let p := local_search_params query count
    match env.localInitResp p.q p.count with
    | Except.error e => Except.error e
    | Except.ok resp => local_search_continue env lim t1 t2 t3 query count g.newState resp

/-- The `brave_web_search` tool (lines 293–312): return the search text, or
`Error: <message>` for any raised error. -/
def brave_web_search (env : Upstream) (lim : RateLimit) (now : ℚ) (query : String)
    (count offset : Nat) (rc : RequestCount) : String :=
  match perform_web_search env lim now query count offset rc with
  | Except.ok (s, _) => s
  | Except.error e => "Error: " ++ e

/-- The `brave_local_search` tool (lines 327–344): return the search text, or
`Error: <message>` for any raised error. -/
def brave_local_search (env : Upstream) (lim : RateLimit) (t0 t1 t2 t3 : ℚ)
    (query : String) (count : Nat) (rc : RequestCount) : String :=
  match perform_local_search env lim t0 t1 t2 t3 query count rc with
  | Except.ok (s, _) => s
  | Except.error e => "Error: " ++ e

/-- C8: the web extraction yields the web-results entries with missing fields
defaulted to the empty string, and the empty list when the section or list is
absent; the formatting is three labelled lines per entry joined by blank
lines; and a successful `perform_web_search` returns exactly that format of
that extraction applied to the upstream response body. -/
theorem web_extraction_format_spec (data : BraveWebResponse) :
    (data.web = none → extract_web_results data = []) ∧
    (∀ sec, data.web = some sec → sec.results = none → extract_web_results data = []) ∧
    (∀ sec rs, data.web = some sec → sec.results = some rs →
      extract_web_results data =
        rs.map (fun r => ⟨r.title.getD "", r.description.getD "", r.url.getD ""⟩)) ∧
    (∀ l : List WebResult,
      format_web l = String.intercalate "\n\n" (l.map (fun r =>
        String.intercalate "\n"
          ["Title: " ++ r.title, "Description: " ++ r.description, "URL: " ++ r.url]))) ∧
    (∀ (env : Upstream) (lim : RateLimit) (now : ℚ) (q : String) (c o : Nat)
        (rc : RequestCount) (resp : HttpResponse BraveWebResponse) (s : String)
        (rc' : RequestCount),
      env.webSearchResp q (min c 20) o = Except.ok resp →
      perform_web_search env lim now q c o rc = Except.ok (s, rc') →
      s = format_web (extract_web_results resp.body)) := by
  refine ⟨?_, ?_, ?_, ?_, ?_⟩
  · intro h; simp [extract_web_results, h]
  · intro sec h hr; simp [extract_web_results, h, hr]
  · intro sec rs h hr; simp [extract_web_results, h, hr]
  · intro l
    unfold format_web
    congr 1
    apply List.map_congr_left
    intro r _
    apply String.ext
    simp [String.intercalate, String.intercalate.go, String.data_append, List.append_assoc]
  · intro env lim now q c o rc resp s rc' hresp hrun
    simp only [perform_web_search, web_search_params] at hrun
    cases hg : (check_rate_limit lim now rc).error with
    | some e => rw [hg] at hrun; exact absurd hrun (by simp)
    | none =>
      rw [hg, hresp] at hrun
      replace hrun : (if resp.status_code ≠ 200 then Except.error (apiError resp)
          else Except.ok (format_web (extract_web_results resp.body),
            (check_rate_limit lim now rc).newState)) = Except.ok (s, rc') := hrun
      by_cases hs : resp.status_code ≠ 200
      · rw [if_pos hs] at hrun; exact absurd hrun (by simp)
      · rw [if_neg hs] at hrun
        simp only [Except.ok.injEq, Prod.mk.injEq] at hrun
        exact hrun.1.symm

/-- A fixed upstream response body used by concrete witnesses. -/
def dataW : BraveWebResponse :=
  ⟨some ⟨some [⟨some "Sample Title 1", some "Sample Description 1",
      some "https://example.com/1"⟩, ⟨none, none, none⟩]⟩, none⟩

/-- A concrete upstream oracle used by witnesses: every endpoint answers with
status 200; web searches answer with `dataW`, the local initial lookup with a
body carrying no locations. -/
def envW : Upstream where
  webSearchResp := fun _ _ _ => Except.ok ⟨200, "OK", "", dataW⟩
  localInitResp := fun _ _ => Except.ok ⟨200, "OK", "", ⟨none, none⟩⟩
  poisResp := fun _ => Except.ok ⟨200, "OK", "", ⟨none⟩⟩
  descResp := fun _ => Except.ok ⟨200, "OK", "", ⟨[]⟩⟩

/-- Witness for C8: a concrete successful web search against `envW` returns
the formatted extraction of `dataW`. -/
theorem web_extraction_format_spec_witness :
    envW.webSearchResp "test query" (min 10 20) 0 =
      Except.ok ⟨200, "OK", "", dataW⟩ ∧
    perform_web_search envW RATE_LIMIT 0 "test query" 10 0 ⟨0, 0, 0⟩ =
      Except.ok (format_web (extract_web_results dataW), ⟨1, 1, 0⟩) ∧
    format_web (extract_web_results dataW) =
      format_web (extract_web_results (⟨200, "OK", "", dataW⟩ :
        HttpResponse BraveWebResponse).body) := by
  have hg : check_rate_limit RATE_LIMIT 0 ⟨0, 0, 0⟩ = ⟨⟨1, 1, 0⟩, none⟩ := by
    norm_num [check_rate_limit, windowAdjust, RATE_LIMIT]
  have hrun : perform_web_search envW RATE_LIMIT 0 "test query" 10 0 ⟨0, 0, 0⟩ =
      Except.ok (format_web (extract_web_results dataW), ⟨1, 1, 0⟩) := by
    simp only [perform_web_search, web_search_params, hg]
    rfl
  exact ⟨rfl, hrun,
    (web_extraction_format_spec dataW).2.2.2.2 envW RATE_LIMIT 0 "test query" 10 0
      ⟨0, 0, 0⟩ ⟨200, "OK", "", dataW⟩ (format_web (extract_web_results dataW))
      ⟨1, 1, 0⟩ rfl hrun⟩

/-- C4: each tool returns the inner flow's text on success and the string
`Error: ` followed by the original message on any raised error; it never
propagates a fault. -/
theorem tool_error_boundary (env : Upstream) (lim : RateLimit) (now t0 t1 t2 t3 : ℚ)
    (query : String) (count offset : Nat) (rc : RequestCount) :
    (∀ e, perform_web_search env lim now query count offset rc = Except.error e →
      brave_web_search env lim now query count offset rc = "Error: " ++ e) ∧
    (∀ s rc', perform_web_search env lim now query count offset rc = Except.ok (s, rc') →
      brave_web_search env lim now query count offset rc = s) ∧
    (∀ e, perform_local_search env lim t0 t1 t2 t3 query count rc = Except.error e →
      brave_local_search env lim t0 t1 t2 t3 query count rc = "Error: " ++ e) ∧
    (∀ s rc', perform_local_search env lim t0 t1 t2 t3 query count rc = Except.ok (s, rc') →
      brave_local_search env lim t0 t1 t2 t3 query count rc = s) := by
  refine ⟨?_, ?_, ?_, ?_⟩
  · intro e h; unfold brave_web_search; rw [h]
  · intro s rc' h; unfold brave_web_search; rw [h]
  · intro e h; unfold brave_local_search; rw [h]
  · intro s rc' h; unfold brave_local_search; rw [h]

/-- Witness for C4: from an exhausted per-second budget both tools answer
with the `Error: `-prefixed rate-limit message instead of a fault. -/
theorem tool_error_boundary_witness :
    perform_web_search envW RATE_LIMIT 0 "q" 10 0 ⟨1, 0, 0⟩ =
      Except.error "Rate limit exceeded" ∧
    brave_web_search envW RATE_LIMIT 0 "q" 10 0 ⟨1, 0, 0⟩ =
      "Error: " ++ "Rate limit exceeded" ∧
    perform_local_search envW RATE_LIMIT 0 0 0 0 "q" 5 ⟨1, 0, 0⟩ =
      Except.error "Rate limit exceeded" ∧
    brave_local_search envW RATE_LIMIT 0 0 0 0 "q" 5 ⟨1, 0, 0⟩ =
      "Error: " ++ "Rate limit exceeded" := by
  have hg : check_rate_limit RATE_LIMIT 0 ⟨1, 0, 0⟩ = ⟨⟨1, 0, 0⟩, some "Rate limit exceeded"⟩ := by
    norm_num [check_rate_limit, windowAdjust, RATE_LIMIT]
  have hweb : perform_web_search envW RATE_LIMIT 0 "q" 10 0 ⟨1, 0, 0⟩ =
      Except.error "Rate limit exceeded" := by
    simp only [perform_web_search, web_search_params, hg]
  have hloc : perform_local_search envW RATE_LIMIT 0 0 0 0 "q" 5 ⟨1, 0, 0⟩ =
      Except.error "Rate limit exceeded" := by
    simp only [perform_local_search, local_search_params, hg]
  exact ⟨hweb,
    (tool_error_boundary envW RATE_LIMIT 0 0 0 0 0 "q" 10 0 ⟨1, 0, 0⟩).1
      "Rate limit exceeded" hweb,
    hloc,
    (tool_error_boundary envW RATE_LIMIT 0 0 0 0 0 "q" 5 0 ⟨1, 0, 0⟩).2.2.1
      "Rate limit exceeded" hloc⟩

/-- C5: for a requested count above 20, the count put in the outgoing
parameters is exactly 20, for both the web search and the initial local
request, and both flows behave exactly as if 20 had been requested — no
error is raised. -/
theorem count_clamped (query : String) (count offset : Nat) (h : count > 20) :
    (web_search_params query count offset).count = 20 ∧
    (local_search_params query count).count = 20 ∧
    (∀ (env : Upstream) (lim : RateLimit) (now : ℚ) (rc : RequestCount),
      perform_web_search env lim now query count offset rc =
        perform_web_search env lim now query 20 offset rc) ∧
    (∀ (env : Upstream) (lim : RateLimit) (t0 t1 t2 t3 : ℚ) (rc : RequestCount),
      perform_local_search env lim t0 t1 t2 t3 query count rc =
        perform_local_search env lim t0 t1 t2 t3 query 20 rc) := by
  have hmin : min count 20 = 20 := by omega
  have hw : ∀ (env : Upstream) (lim : RateLimit) (now : ℚ) (o : Nat) (rc : RequestCount),
      perform_web_search env lim now query count o rc =
        perform_web_search env lim now query 20 o rc := by
    intro env lim now o rc
    simp only [perform_web_search, web_search_params, hmin, min_self]
  refine ⟨by simp [web_search_params, hmin], by simp [local_search_params, hmin],
    fun env lim now rc => hw env lim now offset rc, ?_⟩
  intro env lim t0 t1 t2 t3 rc
  simp only [perform_local_search, local_search_continue, local_search_params, hmin,
    min_self, hw env lim]

/-- Witness for C5 at count 25. -/
theorem count_clamped_witness :
    25 > 20 ∧
    (web_search_params "q" 25 0).count = 20 ∧
    (local_search_params "q" 25).count = 20 ∧
    perform_web_search envW RATE_LIMIT 0 "q" 25 0 ⟨0, 0, 0⟩ =
      perform_web_search envW RATE_LIMIT 0 "q" 20 0 ⟨0, 0, 0⟩ :=
  ⟨by decide, (count_clamped "q" 25 0 (by decide)).1,
    (count_clamped "q" 25 0 (by decide)).2.1,
    (count_clamped "q" 25 0 (by decide)).2.2.1 envW RATE_LIMIT 0 ⟨0, 0, 0⟩⟩

/-- The text of a successful web search does not depend on the counter state
or admit time: a successful run from any other state whose admit passes
yields the same text. -/
theorem perform_web_search_text_stable (env : Upstream) (lim : RateLimit) (t t' : ℚ)
    (q : String) (c o : Nat) (rc rc2 : RequestCount) (s : String) (rc1 : RequestCount)
    (h : perform_web_search env lim t q c o rc = Except.ok (s, rc1))
    (hg : (check_rate_limit lim t' rc2).error = none) :
    perform_web_search env lim t' q c o rc2 =
      Except.ok (s, (check_rate_limit lim t' rc2).newState) := by
  simp only [perform_web_search, web_search_params] at h ⊢
  rw [hg]
  cases hg0 : (check_rate_limit lim t rc).error with
  | some e => rw [hg0] at h; exact absurd h (by simp)
  | none =>
    rw [hg0] at h
    replace h : (match env.webSearchResp q (min c 20) o with
        | Except.error e => Except.error e
        | Except.ok resp =>
          if resp.status_code ≠ 200 then Except.error (apiError resp)
          else Except.ok (format_web (extract_web_results resp.body),
            (check_rate_limit lim t rc).newState)) = Except.ok (s, rc1) := h
    show (match env.webSearchResp q (min c 20) o with
        | Except.error e => Except.error e
        | Except.ok resp =>
          if resp.status_code ≠ 200 then Except.error (apiError resp)
          else Except.ok (format_web (extract_web_results resp.body),
            (check_rate_limit lim t' rc2).newState)) =
      Except.ok (s, (check_rate_limit lim t' rc2).newState)
    cases hr : env.webSearchResp q (min c 20) o with
    | error e => rw [hr] at h; exact absurd h (by simp)
    | ok resp =>
      rw [hr] at h
      replace h : (if resp.status_code ≠ 200 then Except.error (apiError resp)
          else Except.ok (format_web (extract_web_results resp.body),
            (check_rate_limit lim t rc).newState)) = Except.ok (s, rc1) := h
      by_cases hs : resp.status_code ≠ 200
      · rw [if_pos hs] at h; exact absurd h (by simp)
      · rw [if_neg hs] at h
        simp only [Except.ok.injEq, Prod.mk.injEq] at h
        show (if resp.status_code ≠ 200 then Except.error (apiError resp)
            else Except.ok (format_web (extract_web_results resp.body),
              (check_rate_limit lim t' rc2).newState)) =
          Except.ok (s, (check_rate_limit lim t' rc2).newState)
        rw [if_neg hs, h.1]

/-- C3: when the initial local lookup succeeds (status 200) and yields no
truthy location ids, the orchestration is exactly the single fallback call
`perform_web_search(query, count)` at offset 0 — the local flow is not
retried — and on success its text is the text any plain web search with the
same query and count returns from any state whose admit passes. -/
theorem local_fallback_eq_web (env : Upstream) (lim : RateLimit) (t0 t1 t2 t3 : ℚ)
    (query : String) (count : Nat) (rc : RequestCount)
    (resp : HttpResponse BraveWebResponse)
    (hresp : env.localInitResp query (min count 20) = Except.ok resp)
    (hstatus : resp.status_code = 200)
    (hids : extract_location_ids resp.body = []) :
    ((check_rate_limit lim t0 rc).error = none →
      perform_local_search env lim t0 t1 t2 t3 query count rc =
        perform_web_search env lim t1 query count 0
          (check_rate_limit lim t0 rc).newState) ∧
    (∀ (s : String) (rcf : RequestCount) (t' : ℚ) (rc2 : RequestCount),
      perform_local_search env lim t0 t1 t2 t3 query count rc = Except.ok (s, rcf) →
      (check_rate_limit lim t' rc2).error = none →
      perform_web_search env lim t' query count 0 rc2 =
        Except.ok (s, (check_rate_limit lim t' rc2).newState)) := by
  have key : (check_rate_limit lim t0 rc).error = none →
      perform_local_search env lim t0 t1 t2 t3 query count rc =
        perform_web_search env lim t1 query count 0
          (check_rate_limit lim t0 rc).newState := by
    intro hg
    simp only [perform_local_search, local_search_params]
    rw [hg, hresp]
    show local_search_continue env lim t1 t2 t3 query count
        (check_rate_limit lim t0 rc).newState resp =
      perform_web_search env lim t1 query count 0 (check_rate_limit lim t0 rc).newState
    simp [local_search_continue, hids, hstatus]
  refine ⟨key, ?_⟩
  intro s rcf t' rc2 hok hg2
  cases hg : (check_rate_limit lim t0 rc).error with
  | some e =>
    have herr : perform_local_search env lim t0 t1 t2 t3 query count rc =
        Except.error e := by
      simp only [perform_local_search, local_search_params]
      rw [hg]
    rw [herr] at hok
    exact absurd hok (by simp)
  | none =>
    rw [key hg] at hok
    exact perform_web_search_text_stable env lim t1 t' query count 0
      (check_rate_limit lim t0 rc).newState rc2 s rcf hok hg2

/-- Witness for C3: against `envW` (whose initial local lookup carries no
locations) and limits allowing two admits in the same second, the local
search equals the fallback web search. -/
theorem local_fallback_eq_web_witness :
    envW.localInitResp "pizza" (min 5 20) =
      Except.ok ⟨200, "OK", "", ⟨none, none⟩⟩ ∧
    extract_location_ids (⟨none, none⟩ : BraveWebResponse) = [] ∧
    (check_rate_limit ⟨2, 100⟩ 0 ⟨0, 0, 0⟩).error = none ∧
    perform_local_search envW ⟨2, 100⟩ 0 0 0 0 "pizza" 5 ⟨0, 0, 0⟩ =
      perform_web_search envW ⟨2, 100⟩ 0 "pizza" 5 0
        (check_rate_limit ⟨2, 100⟩ 0 ⟨0, 0, 0⟩).newState := by
  have hg : check_rate_limit ⟨2, 100⟩ 0 ⟨0, 0, 0⟩ = ⟨⟨1, 1, 0⟩, none⟩ := by
    norm_num [check_rate_limit, windowAdjust]
  refine ⟨rfl, rfl, by rw [hg], ?_⟩
  exact (local_fallback_eq_web envW ⟨2, 100⟩ 0 0 0 0 "pizza" 5 ⟨0, 0, 0⟩
    ⟨200, "OK", "", ⟨none, none⟩⟩ rfl rfl rfl).1 (by rw [hg])
